import Mathlib

/-!
# DPS-OS policy engine: a shallow embedding in Lean 4

This file embeds, directly from the Python sources of the DPS-OS
repository, the pieces of the program that its design claims speak
about:

* `src/daemon/ruleEngine.py` — `RuleEngine.evaluate` (candidate filter,
  priority sort, cooldown check);
* `src/daemon/daemon.py` — `DPSDaemon.handle_conn` (ingress decode and
  dispatch);
* `src/daemon/actionDispatcher.py` — `ActionDispatcher.applyActions`;
* `src/dps_app.py` — `DPSMonitor.add_event`, `DPSMonitor.execute_actions`,
  `DPSMonitor.transition_zone`, the USB monitor's add/remove handlers and
  the `api_simulate_event` endpoint.

External I/O (subprocess calls, sockets, timestamps, the clipboard
monitor thread) is abstracted: action executors become injected
functions returning `Except`, JSON arrival becomes an inductive
`RawInput`, and `time.time()` becomes an explicit `Int` parameter.
Everything else follows the Python line by line.
-/

namespace DPS

/-! ## Strings: substring containment (Python's `in` operator) -/

/-- Character-list prefix test, written structurally so that the kernel
can evaluate it. -/
def prefixChk : List Char → List Char → Bool
  | [], _ => true
  | _ :: _, [] => false
  | c :: cs, d :: ds => (c == d) && prefixChk cs ds

/-- Character-list contiguous-infix test: Python's `needle in hay`. -/
def infixChk (n : List Char) : List Char → Bool
  | [] => prefixChk n []
  | d :: ds => prefixChk n (d :: ds) || infixChk n ds

/-- `substrB needle hay` models Python's `needle in hay` on strings. -/
def substrB (needle hay : String) : Bool :=
  infixChk needle.toList hay.toList

/-- Models `pat.replace('*','')` from `ruleEngine.py` line 20: drop every
asterisk of the pattern. -/
def stripStars (s : String) : String :=
  String.mk (s.toList.filter (fun c => c ≠ '*'))

/-! ## Data model: events, rules, the cooldown map

`Event` models the decoded JSON object handed to `RuleEngine.evaluate`:
`event.get('trigger')` and the optional `'url'` field are the only keys
the engine reads. `Edge` models one element of the rule document's
`edges` list (shape `{from, to, trigger, conditions, actions, priority,
cooldownSeconds?}`); `conditions` only ever carries the optional
`urlPattern` list, the single condition kind the code checks. A missing
`priority` reads as `0` (`edge.get('priority', 0)`) and a missing or
zero `cooldownSeconds` is the falsy case of
`selected.get('cooldownSeconds')`, so both are total fields here. -/

structure Event where
  trigger : Option String
  url : Option String
deriving DecidableEq

structure Conditions where
  urlPattern : Option (List String)
deriving DecidableEq

/-- The `from` field of a rule: a zone name or the wildcard. The engine
in `ruleEngine.py` never reads this field; it is carried so that the
spec's matcher (which does read it) can be compared with the code's. -/
inductive ZoneSel where
  | wildcard
  | named (z : String)
deriving DecidableEq

structure Edge where
  fromZone : ZoneSel
  toZone : String
  trigger : String
  conditions : Conditions
  actions : List String
  priority : Int
  cooldownSeconds : Nat
deriving DecidableEq

/-- Cooldown key: `selected.get('trigger') + json.dumps(selected.get('conditions',{}))`.
Modelled structurally as the (trigger, conditions) pair — two rules share
a key exactly when trigger and conditions serialization coincide. -/
def RKey : Type := String × Conditions

instance : DecidableEq RKey := by unfold RKey; infer_instance

/-- `self.lastTriggerTimes`, a dict keyed by `RKey`. -/
def CoolMap : Type := List (RKey × Int)

instance : DecidableEq CoolMap := by unfold CoolMap; infer_instance

/-- `self.lastTriggerTimes.get(key, 0)`. -/
def getTime (m : CoolMap) (k : RKey) : Int :=
  match m.find? (fun p => decide (p.1 = k)) with
  | some p => p.2
  | none => 0

/-- `self.lastTriggerTimes[key] = now` (dict assignment replaces the
binding for `key` and leaves every other key alone). -/
def setTime (m : CoolMap) (k : RKey) (v : Int) : CoolMap :=
  (k, v) :: m.filter (fun p => decide (p.1 ≠ k))

/-! ## The rule matcher (`RuleEngine.evaluate`, ruleEngine.py lines 11-34) -/

/-- Lines 17-21: the conditions check. The `urlPattern` test runs only
when the rule declares `urlPattern` AND the event carries a `url`;
otherwise the conditions hold vacuously. -/
def condOk (c : Conditions) (ev : Event) : Bool :=
  match c.urlPattern, ev.url with
  | some pats, some url => pats.any (fun pat => substrB (stripStars pat) url)
  | _, _ => true

/-- Lines 14-22: an edge survives the loop's `continue`s exactly when its
trigger equals `event.get('trigger')` and its conditions pass. Note that
the code never consults the edge's `from` field nor any current zone. -/
def candidateOk (e : Edge) (ev : Event) : Bool :=
  decide (ev.trigger = some e.trigger) && condOk e.conditions ev

/-- The `candidates` list built by the loop of lines 13-22. -/
def candidatesOf (rules : List Edge) (ev : Event) : List Edge :=
  rules.filter (fun e => candidateOk e ev)

/-- Stable insertion used to model
`candidates.sort(key=lambda e: e.get('priority',0), reverse=True)`:
CPython's sort is stable also under `reverse=True`, so an element is
placed before exactly the earlier-sorted elements of strictly smaller
priority. The resulting descending, stable ordering is unique, so this
insertion sort agrees with Timsort extensionally. -/
def insertByPrio (x : Edge) : List Edge → List Edge
  | [] => [x]
  | a :: as => if a.priority > x.priority then a :: insertByPrio x as else x :: a :: as

def sortDesc : List Edge → List Edge
  | [] => []
  | x :: xs => insertByPrio x (sortDesc xs)

/-- `RuleEngine.evaluate` (lines 11-34). Returns the selected edge (or
none) together with the updated `lastTriggerTimes`. `now` stands for
`time.time()`. Lines 23-25: empty candidate set means no rule; otherwise
the head of the descending-sorted candidates is `selected`. Lines 26-34:
a truthy `cooldownSeconds` suppresses the rule (returning None and NOT
updating the map) when `now - last < cooldownSeconds`, and otherwise
records `now` before returning the rule. -/
def evaluate (rules : List Edge) (ev : Event) (m : CoolMap) (now : Int) :
    Option Edge × CoolMap :=
  match sortDesc (candidatesOf rules ev) with
  | [] => (none, m)
  | sel :: _ =>
      if sel.cooldownSeconds ≠ 0 then
        if now - getTime m (sel.trigger, sel.conditions) < (sel.cooldownSeconds : Int) then
          (none, m)
        else
          (some sel, setTime m (sel.trigger, sel.conditions) now)
      else
        (some sel, m)

/-! ## The spec-side matcher, for comparison

Modelled from the spec, section 4.1: "filter Rule Set to rules where
`trigger == event.trigger` and (`fromZone == Wildcard` or
`fromZone == currentZone`) and `conditions(event.payload)` holds."
This is NOT what `ruleEngine.py` computes — the comparison is the point. -/
def specRuleMatches (currentZone : String) (e : Edge) (ev : Event) : Bool :=
  decide (ev.trigger = some e.trigger) &&
  (decide (e.fromZone = ZoneSel.wildcard) || decide (e.fromZone = ZoneSel.named currentZone)) &&
  condOk e.conditions ev

/-! ## The daemon's action dispatcher and connection handler

`ActionDispatcher.applyActions` (actionDispatcher.py lines 8-17) walks
the action list in order; the three known names each launch an external
command, anything else falls through to the `print('Unknown action', a)`
branch and the loop continues. -/

inductive DispatchOutcome where
  | ran (a : String)
  | unknownAction (a : String)
deriving DecidableEq

def applyActions (actions : List String) : List DispatchOutcome :=
  actions.map (fun a =>
    if a = "enableVpn" ∨ a = "lockClipboard" ∨ a = "remountHomeRo" then
      DispatchOutcome.ran a
    else
      DispatchOutcome.unknownAction a)

/-- What arrives on the daemon socket: either bytes that fail
`json.loads` or a decoded JSON object (of which `handle_conn` and the
engine read only `trigger`, `url` and `actions`). -/
inductive RawInput where
  | badJson (raw : String)
  | goodJson (evt : Event)

inductive ConnResult where
  | decodeError
  | handled (matched : Option Edge)
deriving DecidableEq

/-- `DPSDaemon.handle_conn` (daemon.py lines 26-38). A `json.loads`
failure is caught by the `except` clause (logged, no crash): the rule
engine is never consulted and nothing is dispatched. A decoded event is
evaluated; a matched edge has its `actions` handed to the dispatcher.
The returned triple is (outcome, dispatcher work, cooldown map). -/
def handleConn (rules : List Edge) (m : CoolMap) (now : Int) (inp : RawInput) :
    ConnResult × List DispatchOutcome × CoolMap :=
  match inp with
  | RawInput.badJson _ => (ConnResult.decodeError, [], m)
  | RawInput.goodJson evt =>
      match evaluate rules evt m now with
      | (some edge, m2) => (ConnResult.handled (some edge), applyActions edge.actions, m2)
      | (none, m2) => (ConnResult.handled none, [], m2)

/-! ## The application monitor (`dps_app.py`)

State of the single `DPSMonitor` instance: the fields the claims speak
about (`current_zone`, `ultra_mode_locked`, `connected_usb_devices`, the
event log and its capacity, the counters). The clipboard-monitor thread
bookkeeping is external I/O management and is not part of the state
model. -/

structure EventRecord where
  etype : String
  data : String
  zone : String
deriving DecidableEq

structure MonitorState where
  currentZone : String
  ultraModeLocked : Bool
  connectedUsbDevices : List String
  events : List EventRecord
  maxEvents : Nat
  zoneTransitions : Nat
  eventsProcessed : Nat
deriving DecidableEq

/-- `DPSMonitor.add_event` (lines 145-160): insert the new record at the
front, and if the log now exceeds `max_events`, pop the last (oldest)
record. -/
def addEventRecord (s : MonitorState) (etype data : String) : MonitorState :=
  let evs := ({ etype := etype, data := data, zone := s.currentZone } : EventRecord) :: s.events
  { s with
    events := if evs.length > s.maxEvents then evs.dropLast else evs,
    eventsProcessed := s.eventsProcessed + 1 }

/-- `DPSMonitor.transition_zone` (lines 338-367). When Ultra mode is
locked, the current zone is `zone3`, the target differs and USB devices
are still connected, the transition is blocked: only a
`zone_transition_blocked` record is logged. Otherwise the zone changes,
the counter increments and a `zone_transition` record is logged. -/
def transitionZone (s : MonitorState) (newZone reason : String) : MonitorState :=
  if s.ultraModeLocked ∧ s.currentZone = "zone3" ∧ newZone ≠ "zone3" ∧
      s.connectedUsbDevices ≠ [] then
    addEventRecord s "zone_transition_blocked"
      ("attempted " ++ s.currentZone ++ " to " ++ newZone)
  else
    addEventRecord
      { s with currentZone := newZone, zoneTransitions := s.zoneTransitions + 1 }
      "zone_transition" reason

/-! ## Security actions (`DPSMonitor.execute_actions`, lines 162-185) -/

/-- The `security_actions.*.enabled` switches read from the global
config; every default is `True`. -/
structure SecConfig where
  vpnEnabled : Bool
  clipboardEnabled : Bool
  filesystemEnabled : Bool
  notificationsEnabled : Bool
deriving DecidableEq

def defaultConfig : SecConfig :=
  { vpnEnabled := true, clipboardEnabled := true,
    filesystemEnabled := true, notificationsEnabled := true }

/-- An injected executor for the platform-specific action bodies
(`enable_vpn`, `lock_clipboard`, ...): `Except.error` models the body
raising an exception. -/
def ActionExec : Type := String → Except String String

/-- One iteration of the `execute_actions` loop: the if/elif chain picks
the enabled handler, anything else yields the
`f"Action {action} disabled or unknown"` result, and the surrounding
`try/except` converts a raised exception into an
`f"{action}: ERROR - ..."` result instead of aborting the loop. -/
def runAction (cfg : SecConfig) (ex : ActionExec) (a : String) : String :=
  let attempt : Except String String :=
    if a = "enableVpn" ∧ cfg.vpnEnabled then ex a
    else if a = "lockClipboard" ∧ cfg.clipboardEnabled then ex a
    else if a = "unlockClipboard" then ex a
    else if a = "remountHomeRo" ∧ cfg.filesystemEnabled then ex a
    else if a = "notifyUser" ∧ cfg.notificationsEnabled then ex a
    else Except.ok ("Action " ++ a ++ " disabled or unknown")
  match attempt with
  | Except.ok r => a ++ ": " ++ r
  | Except.error e => a ++ ": ERROR - " ++ e

/-- `DPSMonitor.execute_actions`: one result string appended per action,
in declared order. -/
def executeActions (cfg : SecConfig) (ex : ActionExec) : List String → List String
  | [] => []
  | a :: rest => runAction cfg ex a :: executeActions cfg ex rest

/-! ## USB monitor handlers and simulated events -/

/-- Python `set.add` on the connected-device set. -/
def addDevice (d : String) (l : List String) : List String :=
  if d ∈ l then l else d :: l

/-- The `device.action == 'add'` branch of
`USBMonitor._start_linux_monitoring` (lines 397-416): record the device,
log, force the transition to `zone3`, set the Ultra lock, run the
lockdown actions and log their results. -/
def handleUsbAdd (ex : ActionExec) (s : MonitorState) (d : String) : MonitorState :=
  let s1 := { s with connectedUsbDevices := addDevice d s.connectedUsbDevices }
  let s2 := addEventRecord s1 "usb_plugged" d
  let s3 := transitionZone s2 "zone3" ("USB device plugged: " ++ d)
  let s4 := { s3 with ultraModeLocked := true }
  let results := executeActions defaultConfig ex ["lockClipboard", "remountHomeRo", "notifyUser"]
  addEventRecord s4 "security_lockdown" (String.intercalate "; " results)

/-- The `device.action == 'remove'` branch (lines 418-436): forget the
device if tracked; when the last one goes, clear the Ultra lock and only
then transition back to `zone1`. -/
def handleUsbRemove (s : MonitorState) (d : String) : MonitorState :=
  if d ∈ s.connectedUsbDevices then
    let s1 := { s with connectedUsbDevices := s.connectedUsbDevices.erase d }
    let s2 := addEventRecord s1 "usb_removed" d
    if s2.connectedUsbDevices = [] then
      let s3 := { s2 with ultraModeLocked := false }
      let s4 := transitionZone s3 "zone1" "All USB devices removed - returning to Normal"
      addEventRecord s4 "security_unlock" "No USB devices connected"
    else s2
  else s

/-- `DPSMonitor.detect_bank_url` (lines 313-336) with the default
configuration lists. -/
def bankKeywords : List String :=
  ["bank", "banking", "finance", "payment", "paypal", "login"]

def financialDomains : List String := [".bank", ".finance", ".pay"]

/-- `url.lower()`, written over the character list so the kernel can
evaluate it. -/
def lowerStr (s : String) : String :=
  String.mk (s.toList.map Char.toLower)

def detectBankUrl (url : String) : Bool :=
  let u := lowerStr url
  bankKeywords.any (fun p => substrB p u) ||
  financialDomains.any (fun p => substrB p u) ||
  (substrB "https://" u && (substrB "login" u || substrB "signin" u || substrB "account" u))

/-- The `event_type == 'usb'` branch of `api_simulate_event`
(lines 730-736). -/
def simulateUsb (ex : ActionExec) (s : MonitorState) (d : String) : MonitorState :=
  let s1 := { s with connectedUsbDevices := addDevice d s.connectedUsbDevices }
  let s2 := transitionZone s1 "zone3" "Simulated USB event"
  let s3 := { s2 with ultraModeLocked := true }
  let results := executeActions defaultConfig ex ["lockClipboard", "notifyUser"]
  addEventRecord s3 "simulated_usb" (String.intercalate "; " results)

/-- The `event_type == 'url'` branch of `api_simulate_event`
(lines 737-744): nothing at all happens unless the URL looks financial. -/
def simulateUrl (ex : ActionExec) (s : MonitorState) (u : String) : MonitorState :=
  if detectBankUrl u then
    let s1 := if s.ultraModeLocked = false then
        transitionZone s "zone2" ("Simulated bank URL: " ++ u)
      else s
    let results := executeActions defaultConfig ex ["enableVpn", "lockClipboard", "notifyUser"]
    addEventRecord s1 "simulated_bank_url" (String.intercalate "; " results)
  else s

/-- `DPSMonitor.__init__`: zone1 (Normal), unlocked, no devices, empty
log, default capacity 1000. -/
def initState : MonitorState :=
  { currentZone := "zone1", ultraModeLocked := false, connectedUsbDevices := [],
    events := [], maxEvents := 1000, zoneTransitions := 0, eventsProcessed := 0 }

/-- The monitor states reachable from start-up through the operations
that mutate `DPSMonitor`: direct zone transitions (process/URL
monitors), the USB add/remove handlers, the two simulation endpoints and
bare event logging (network monitor). The executor is arbitrary at every
step. -/
inductive Reachable : MonitorState → Prop
  | init : Reachable initState
  | transitionStep (s : MonitorState) (z reason : String) :
      Reachable s → Reachable (transitionZone s z reason)
  | usbAdd (ex : ActionExec) (s : MonitorState) (d : String) :
      Reachable s → Reachable (handleUsbAdd ex s d)
  | usbRemove (s : MonitorState) (d : String) :
      Reachable s → Reachable (handleUsbRemove s d)
  | simUsb (ex : ActionExec) (s : MonitorState) (d : String) :
      Reachable s → Reachable (simulateUsb ex s d)
  | simUrl (ex : ActionExec) (s : MonitorState) (u : String) :
      Reachable s → Reachable (simulateUrl ex s u)
  | logEvent (s : MonitorState) (t dt : String) :
      Reachable s → Reachable (addEventRecord s t dt)

/-! ## Concrete instances used by witnesses and counterexamples -/

def exOk : ActionExec := fun _ => Except.ok "done"

def sLocked : MonitorState :=
  { currentZone := "zone3", ultraModeLocked := true, connectedUsbDevices := ["sdb1"],
    events := [], maxEvents := 1000, zoneTransitions := 1, eventsProcessed := 0 }

def sLockedTwo : MonitorState :=
  { sLocked with connectedUsbDevices := ["sdb1", "sdc1"] }

def sLogFull : MonitorState :=
  { currentZone := "zone1", ultraModeLocked := false, connectedUsbDevices := [],
    events := [{ etype := "a", data := "1", zone := "zone1" },
               { etype := "b", data := "2", zone := "zone1" }],
    maxEvents := 2, zoneTransitions := 0, eventsProcessed := 2 }

def eWrongZone : Edge :=
  { fromZone := ZoneSel.named "zone2", toZone := "zone2", trigger := "procStart",
    conditions := { urlPattern := none }, actions := ["enableVpn"],
    priority := 0, cooldownSeconds := 0 }

def evProc : Event := { trigger := some "procStart", url := none }

def eZone3Rule : Edge :=
  { fromZone := ZoneSel.named "zone3", toZone := "zone3", trigger := "netConn",
    conditions := { urlPattern := none }, actions := ["lockClipboard"],
    priority := 1, cooldownSeconds := 0 }

def evNet : Event := { trigger := some "netConn", url := none }

def evUnmatched : Event := { trigger := some "totallyUnknown", url := none }

def eUsbRule : Edge :=
  { fromZone := ZoneSel.wildcard, toZone := "zone3", trigger := "usbPlugged",
    conditions := { urlPattern := none }, actions := ["remountHomeRo", "notifyUser"],
    priority := 10, cooldownSeconds := 0 }

def eCool : Edge :=
  { fromZone := ZoneSel.wildcard, toZone := "zone2", trigger := "cool",
    conditions := { urlPattern := none }, actions := [], priority := 0,
    cooldownSeconds := 5 }

def evCool : Event := { trigger := some "cool", url := none }

def mFired : CoolMap := setTime [] ("cool", { urlPattern := none }) 100

def eTieA : Edge :=
  { fromZone := ZoneSel.wildcard, toZone := "zone2", trigger := "tie",
    conditions := { urlPattern := none }, actions := ["enableVpn"],
    priority := 7, cooldownSeconds := 0 }

def eTieB : Edge :=
  { eTieA with toZone := "zone3", actions := ["notifyUser"] }

def evTie : Event := { trigger := some "tie", url := none }

def knownActions : List String :=
  ["enableVpn", "lockClipboard", "unlockClipboard", "remountHomeRo", "notifyUser"]

def exBoom : ActionExec := fun _ => Except.error "boom"

def eUrlCond : Edge :=
  { fromZone := ZoneSel.wildcard, toZone := "zone2", trigger := "openSensitiveUrl",
    conditions := { urlPattern := some ["*.bank.com"] }, actions := ["enableVpn"],
    priority := 5, cooldownSeconds := 0 }

def evNoUrl : Event := { trigger := some "openSensitiveUrl", url := none }

/-! ## Helper lemmas: the stable descending sort -/

lemma insertByPrio_ne_nil (x : Edge) (l : List Edge) : insertByPrio x l ≠ [] := by
  cases l with
  | nil => simp [insertByPrio]
  | cons a as =>
      simp only [insertByPrio]
      split <;> simp

lemma sortDesc_eq_nil_iff (l : List Edge) : sortDesc l = [] ↔ l = [] := by
  cases l with
  | nil => simp [sortDesc]
  | cons x xs => simp [sortDesc, insertByPrio_ne_nil]

/-- The head of the stable descending sort is a maximal-priority element
of the input, and it is the first such element in input order. -/
lemma sortDesc_head_spec (l : List Edge) (r : Edge) (t : List Edge)
    (h : sortDesc l = r :: t) :
    r ∈ l ∧ (∀ y ∈ l, y.priority ≤ r.priority) ∧
      ∃ p q, l = p ++ r :: q ∧ ∀ y ∈ p, y.priority < r.priority := by
  induction l generalizing r t with
  | nil => simp [sortDesc] at h
  | cons x xs ih =>
      rw [sortDesc] at h
      cases h2 : sortDesc xs with
      | nil =>
          have hx : xs = [] := (sortDesc_eq_nil_iff xs).1 h2
          subst hx
          rw [h2] at h
          simp only [insertByPrio] at h
          injection h with h1 h2
          subst h1; subst h2
          refine ⟨by simp, by simp, [], [], by simp, by simp⟩
      | cons b bs =>
          rw [h2] at h
          simp only [insertByPrio] at h
          by_cases hp : b.priority > x.priority
          · rw [if_pos hp] at h
            injection h with hbr ht2
            subst hbr
            obtain ⟨hmem, hmax, p, q, hpq, hlt⟩ := ih b bs h2
            refine ⟨List.mem_cons_of_mem _ hmem, ?_, x :: p, q, by simp [hpq], ?_⟩
            · intro y hy
              rcases List.mem_cons.1 hy with rfl | hy'
              · exact le_of_lt hp
              · exact hmax y hy'
            · intro y hy
              rcases List.mem_cons.1 hy with rfl | hy'
              · exact hp
              · exact hlt y hy'
          · rw [if_neg hp] at h
            injection h with hxr ht2
            subst hxr
            obtain ⟨-, hmax, -, -, -, -⟩ := ih b bs h2
            refine ⟨List.mem_cons_self _ _, ?_, [], xs, by simp, by simp⟩
            intro y hy
            rcases List.mem_cons.1 hy with rfl | hy'
            · exact le_refl _
            · exact le_trans (hmax y hy') (not_lt.1 hp)

/-! ## Helper lemmas: cooldown map and evaluate inversion -/

lemma getTime_setTime_self (m : CoolMap) (k : RKey) (v : Int) :
    getTime (setTime m k v) k = v := by
  simp [getTime, setTime, List.find?]

lemma evaluate_of_no_candidates (rules : List Edge) (ev : Event) (m : CoolMap)
    (now : Int) (h : candidatesOf rules ev = []) :
    evaluate rules ev m now = (none, m) := by
  unfold evaluate
  rw [h]
  rfl

/-- If `evaluate` returns an edge, that edge heads the sorted candidate
list. -/
lemma evaluate_some_head (rules : List Edge) (ev : Event) (m : CoolMap)
    (now : Int) (r : Edge) (h : (evaluate rules ev m now).1 = some r) :
    ∃ t, sortDesc (candidatesOf rules ev) = r :: t := by
  unfold evaluate at h
  cases hs : sortDesc (candidatesOf rules ev) with
  | nil => rw [hs] at h; simp at h
  | cons sel rest =>
      rw [hs] at h
      dsimp only [] at h
      refine ⟨rest, ?_⟩
      by_cases hc : sel.cooldownSeconds ≠ 0
      · rw [if_pos hc] at h
        by_cases hlt : now - getTime m (sel.trigger, sel.conditions) < (sel.cooldownSeconds : Int)
        · rw [if_pos hlt] at h; simp at h
        · rw [if_neg hlt] at h
          simp only [Prod.fst] at h
          injection h with h1
          rw [h1]
      · rw [if_neg hc] at h
        simp only [Prod.fst] at h
        injection h with h1
        rw [h1]

/-- Inversion of a successful, cooldown-carrying firing: the edge heads
the sorted candidates and the returned map records `now` under the
edge's key. -/
lemma evaluate_fired (rules : List Edge) (ev : Event) (m m2 : CoolMap)
    (now : Int) (r : Edge) (h : evaluate rules ev m now = (some r, m2))
    (hc : r.cooldownSeconds ≠ 0) :
    (∃ t, sortDesc (candidatesOf rules ev) = r :: t) ∧
      m2 = setTime m (r.trigger, r.conditions) now := by
  unfold evaluate at h
  cases hs : sortDesc (candidatesOf rules ev) with
  | nil => rw [hs] at h; simp at h
  | cons sel rest =>
      rw [hs] at h
      dsimp only [] at h
      by_cases hc2 : sel.cooldownSeconds ≠ 0
      · rw [if_pos hc2] at h
        by_cases hlt : now - getTime m (sel.trigger, sel.conditions) < (sel.cooldownSeconds : Int)
        · rw [if_pos hlt] at h; simp at h
        · rw [if_neg hlt] at h
          have h1 : sel = r ∧ setTime m (sel.trigger, sel.conditions) now = m2 := by
            constructor
            · have := congrArg Prod.fst h
              simpa using this
            · exact congrArg Prod.snd h
          obtain ⟨rfl, h2⟩ := h1
          exact ⟨⟨rest, rfl⟩, h2.symm⟩
      · rw [if_neg hc2] at h
        have h1 : sel = r := by
          have := congrArg Prod.fst h
          simpa using this
        rw [h1] at hc2
        exact absurd hc hc2

/-! ## Helper lemmas: monitor state frame conditions -/

@[simp] lemma addEventRecord_currentZone (s : MonitorState) (t d : String) :
    (addEventRecord s t d).currentZone = s.currentZone := rfl

@[simp] lemma addEventRecord_locked (s : MonitorState) (t d : String) :
    (addEventRecord s t d).ultraModeLocked = s.ultraModeLocked := rfl

@[simp] lemma addEventRecord_devices (s : MonitorState) (t d : String) :
    (addEventRecord s t d).connectedUsbDevices = s.connectedUsbDevices := rfl

@[simp] lemma addEventRecord_maxEvents (s : MonitorState) (t d : String) :
    (addEventRecord s t d).maxEvents = s.maxEvents := rfl

lemma transitionZone_locked (s : MonitorState) (z r : String) :
    (transitionZone s z r).ultraModeLocked = s.ultraModeLocked := by
  unfold transitionZone
  split <;> rfl

lemma transitionZone_devices (s : MonitorState) (z r : String) :
    (transitionZone s z r).connectedUsbDevices = s.connectedUsbDevices := by
  unfold transitionZone
  split <;> rfl

/-- The lock guard of `transition_zone`: under the blocking condition the
zone does not change. -/
lemma transitionZone_blocked (s : MonitorState) (z r : String)
    (h : s.ultraModeLocked ∧ s.currentZone = "zone3" ∧ z ≠ "zone3" ∧
      s.connectedUsbDevices ≠ []) :
    (transitionZone s z r).currentZone = s.currentZone := by
  unfold transitionZone
  rw [if_pos h]
  rfl

/-- Outside the blocking condition the requested zone is installed. -/
lemma transitionZone_applies (s : MonitorState) (z r : String)
    (h : ¬(s.ultraModeLocked ∧ s.currentZone = "zone3" ∧ z ≠ "zone3" ∧
      s.connectedUsbDevices ≠ [])) :
    (transitionZone s z r).currentZone = z := by
  unfold transitionZone
  rw [if_neg h]
  rfl

lemma addDevice_ne_nil (d : String) (l : List String) : addDevice d l ≠ [] := by
  unfold addDevice
  split
  · intro hnil
    subst hnil
    simp_all
  · simp

@[simp] lemma handleUsbAdd_locked (ex : ActionExec) (s : MonitorState) (d : String) :
    (handleUsbAdd ex s d).ultraModeLocked = true := rfl

lemma handleUsbAdd_devices (ex : ActionExec) (s : MonitorState) (d : String) :
    (handleUsbAdd ex s d).connectedUsbDevices = addDevice d s.connectedUsbDevices := by
  unfold handleUsbAdd
  rw [addEventRecord_devices]
  show (transitionZone _ _ _).connectedUsbDevices = _
  rw [transitionZone_devices]
  rfl

/-- The forced transition to zone3 on USB attach always lands in zone3:
its target being `"zone3"` falsifies the blocking condition. -/
lemma handleUsbAdd_zone (ex : ActionExec) (s : MonitorState) (d : String) :
    (handleUsbAdd ex s d).currentZone = "zone3" := by
  unfold handleUsbAdd
  rw [addEventRecord_currentZone]
  show (transitionZone _ "zone3" _).currentZone = _
  rw [transitionZone_applies]
  simp

@[simp] lemma simulateUsb_locked (ex : ActionExec) (s : MonitorState) (d : String) :
    (simulateUsb ex s d).ultraModeLocked = true := rfl

lemma simulateUsb_devices (ex : ActionExec) (s : MonitorState) (d : String) :
    (simulateUsb ex s d).connectedUsbDevices = addDevice d s.connectedUsbDevices := by
  unfold simulateUsb
  rw [addEventRecord_devices]
  show (transitionZone _ _ _).connectedUsbDevices = _
  rw [transitionZone_devices]

lemma simulateUrl_locked (ex : ActionExec) (s : MonitorState) (u : String) :
    (simulateUrl ex s u).ultraModeLocked = s.ultraModeLocked := by
  unfold simulateUrl
  split
  · rw [addEventRecord_locked]
    split
    · rw [transitionZone_locked]
    · rfl
  · rfl

lemma simulateUrl_devices (ex : ActionExec) (s : MonitorState) (u : String) :
    (simulateUrl ex s u).connectedUsbDevices = s.connectedUsbDevices := by
  unfold simulateUrl
  split
  · rw [addEventRecord_devices]
    split
    · rw [transitionZone_devices]
    · rfl
  · rfl

lemma handleUsbRemove_not_mem (s : MonitorState) (d : String)
    (h : d ∉ s.connectedUsbDevices) : handleUsbRemove s d = s := by
  unfold handleUsbRemove
  rw [if_neg h]

/-- Removing a device that is not the last witness: the zone and the lock
are untouched, only the witness set shrinks. -/
lemma handleUsbRemove_nonlast (s : MonitorState) (d : String)
    (h : s.connectedUsbDevices.erase d ≠ []) :
    (handleUsbRemove s d).currentZone = s.currentZone ∧
      (handleUsbRemove s d).ultraModeLocked = s.ultraModeLocked := by
  unfold handleUsbRemove
  by_cases hm : d ∈ s.connectedUsbDevices
  · rw [if_pos hm]
    rw [if_neg (by simpa using h)]
    exact ⟨rfl, rfl⟩
  · rw [if_neg hm]
    exact ⟨rfl, rfl⟩

/-- Removing the last witness: the lock is cleared first, so the
transition back to zone1 issued by the same handler is accepted. -/
lemma handleUsbRemove_last (s : MonitorState) (d : String)
    (h : s.connectedUsbDevices = [d]) :
    (handleUsbRemove s d).currentZone = "zone1" ∧
      (handleUsbRemove s d).ultraModeLocked = false ∧
      (handleUsbRemove s d).connectedUsbDevices = [] := by
  unfold handleUsbRemove
  rw [if_pos (by rw [h]; exact List.mem_singleton.2 rfl)]
  rw [if_pos (by simp [h])]
  refine ⟨?_, ?_, ?_⟩
  · rw [addEventRecord_currentZone]
    rw [transitionZone_applies]
    simp
  · rw [addEventRecord_locked]
    rw [transitionZone_locked]
  · rw [addEventRecord_devices]
    rw [transitionZone_devices]
    simp [h]

lemma handleUsbRemove_empty (s : MonitorState) (d : String)
    (hm : d ∈ s.connectedUsbDevices) (he : s.connectedUsbDevices.erase d = []) :
    (handleUsbRemove s d).ultraModeLocked = false ∧
      (handleUsbRemove s d).connectedUsbDevices = [] := by
  unfold handleUsbRemove
  rw [if_pos hm]
  rw [if_pos (by simp [he])]
  constructor
  · rw [addEventRecord_locked, transitionZone_locked]
  · rw [addEventRecord_devices, transitionZone_devices]
    simpa using he

lemma handleUsbRemove_devices_of_mem (s : MonitorState) (d : String)
    (hm : d ∈ s.connectedUsbDevices) (he : s.connectedUsbDevices.erase d ≠ []) :
    (handleUsbRemove s d).connectedUsbDevices = s.connectedUsbDevices.erase d := by
  unfold handleUsbRemove
  rw [if_pos hm]
  rw [if_neg (by simpa using he)]
  rfl

/-! ## Claim theorems -/

/-- Claim C1: in a state where the Ultra lock is held, the current zone
is the lock-holding zone (`zone3`) and the witness set is non-empty,
(i) any transition request to another zone is rejected — the current
zone stays `zone3`; (ii) removing a witness that is not the last one
leaves zone and lock untouched; (iii) once the last witness is removed
the lock is cleared and the exit issued by the same handler succeeds:
the monitor lands in `zone1`, unlocked, with an empty witness set. -/
theorem ultra_lock_transition_policy (s : MonitorState) (z reason d : String)
    (hl : s.ultraModeLocked = true) (hz : s.currentZone = "zone3")
    (hnz : z ≠ "zone3") :
    (s.connectedUsbDevices ≠ [] →
      (transitionZone s z reason).currentZone = "zone3") ∧
    (s.connectedUsbDevices.erase d ≠ [] →
      (handleUsbRemove s d).currentZone = s.currentZone ∧
      (handleUsbRemove s d).ultraModeLocked = s.ultraModeLocked) ∧
    (s.connectedUsbDevices = [d] →
      (handleUsbRemove s d).currentZone = "zone1" ∧
      (handleUsbRemove s d).ultraModeLocked = false ∧
      (handleUsbRemove s d).connectedUsbDevices = []) := by
  refine ⟨?_, fun h => handleUsbRemove_nonlast s d h, fun h => handleUsbRemove_last s d h⟩
  intro hne
  rw [transitionZone_blocked s z reason ⟨by rw [hl], hz, hnz, hne⟩, hz]

/-- Witness for C1 at concrete states: one tracked device `sdb1`
(rejection and last-removal clauses) and two tracked devices
(non-last-removal clause). -/
theorem ultra_lock_transition_policy_witness :
    (transitionZone sLocked "zone1" "request").currentZone = "zone3" ∧
    ((handleUsbRemove sLockedTwo "sdb1").currentZone = "zone3" ∧
      (handleUsbRemove sLockedTwo "sdb1").ultraModeLocked = true) ∧
    ((handleUsbRemove sLocked "sdb1").currentZone = "zone1" ∧
      (handleUsbRemove sLocked "sdb1").ultraModeLocked = false ∧
      (handleUsbRemove sLocked "sdb1").connectedUsbDevices = []) := by
  refine ⟨?_, ?_, ?_⟩
  · exact (ultra_lock_transition_policy sLocked "zone1" "request" "sdb1"
      (by decide) (by decide) (by decide)).1 (by decide)
  · exact (ultra_lock_transition_policy sLockedTwo "zone1" "request" "sdb1"
      (by decide) (by decide) (by decide)).2.1 (by decide)
  · exact (ultra_lock_transition_policy sLocked "zone1" "request" "sdb1"
      (by decide) (by decide) (by decide)).2.2 (by decide)

/-- Claim C3: every reachable monitor state satisfies the lock
invariant — a held Ultra lock implies a non-empty witness set;
equivalently, any operation that empties the witness set also clears the
lock in the same step. -/
theorem lock_witness_invariant (s : MonitorState) (h : Reachable s) :
    s.ultraModeLocked = true → s.connectedUsbDevices ≠ [] := by
  induction h with
  | init => intro hl; exact absurd hl (by decide)
  | transitionStep s z reason _ ih =>
      intro hl
      rw [transitionZone_locked] at hl
      rw [transitionZone_devices]
      exact ih hl
  | usbAdd ex s d _ _ =>
      intro _
      rw [handleUsbAdd_devices]
      exact addDevice_ne_nil d _
  | usbRemove s d _ ih =>
      intro hl
      by_cases hm : d ∈ s.connectedUsbDevices
      · by_cases he : s.connectedUsbDevices.erase d = []
        · rw [(handleUsbRemove_empty s d hm he).1] at hl
          exact absurd hl (by decide)
        · rw [handleUsbRemove_devices_of_mem s d hm he]
          exact he
      · rw [handleUsbRemove_not_mem s d hm] at hl ⊢
        exact ih hl
  | simUsb ex s d _ _ =>
      intro _
      rw [simulateUsb_devices]
      exact addDevice_ne_nil d _
  | simUrl ex s u _ ih =>
      intro hl
      rw [simulateUrl_locked] at hl
      rw [simulateUrl_devices]
      exact ih hl
  | logEvent s t dt _ ih =>
      intro hl
      rw [addEventRecord_locked] at hl
      rw [addEventRecord_devices]
      exact ih hl

/-- Witness for C3 at the reachable state obtained by plugging `sdb1`
into the initial state. -/
theorem lock_witness_invariant_witness :
    (handleUsbAdd exOk initState "sdb1").connectedUsbDevices ≠ [] :=
  lock_witness_invariant _ (Reachable.usbAdd exOk initState "sdb1" Reachable.init)
    (by decide)

/-- Claim C9: `add_event` keeps the log bounded by `max_events`, and the
resulting log is exactly the newest-first prefix — the new record in
front, older records kept in order, the oldest record evicted when the
capacity would be exceeded. -/
theorem event_log_bounded (s : MonitorState) (t d : String)
    (h : s.events.length ≤ s.maxEvents) :
    (addEventRecord s t d).events.length ≤ s.maxEvents ∧
    (addEventRecord s t d).events =
      List.take s.maxEvents
        ({ etype := t, data := d, zone := s.currentZone } :: s.events) := by
  have key : (addEventRecord s t d).events =
      (if (({ etype := t, data := d, zone := s.currentZone } : EventRecord) :: s.events).length > s.maxEvents
        then (({ etype := t, data := d, zone := s.currentZone } : EventRecord) :: s.events).dropLast
        else ({ etype := t, data := d, zone := s.currentZone } : EventRecord) :: s.events) := rfl
  rw [key]
  by_cases hb : (({ etype := t, data := d, zone := s.currentZone } : EventRecord) :: s.events).length > s.maxEvents
  · rw [if_pos hb]
    have hlen : (({ etype := t, data := d, zone := s.currentZone } : EventRecord) :: s.events).length
        = s.maxEvents + 1 := by
      simp only [List.length_cons] at hb ⊢
      omega
    constructor
    · rw [List.length_dropLast, hlen]
      simp
    · rw [List.dropLast_eq_take, hlen]
      simp
  · rw [if_neg hb]
    push_neg at hb
    constructor
    · simpa using hb
    · rw [List.take_of_length_le hb]

/-- Witness for C9 at a full two-slot log: the new record enters at the
front, the oldest record `b` is evicted. -/
theorem event_log_bounded_witness :
    (addEventRecord sLogFull "c" "3").events.length ≤ sLogFull.maxEvents ∧
    (addEventRecord sLogFull "c" "3").events =
      List.take sLogFull.maxEvents
        ({ etype := "c", data := "3", zone := sLogFull.currentZone } :: sLogFull.events) :=
  event_log_bounded sLogFull "c" "3" (by decide)

/-! ## Claims about the matcher's filter (C2, C7) -/

/-- Counterexample to claim C2 as stated: with the monitor in `zone1`,
a rule whose `fromZone` is `zone2` — neither the wildcard nor the
current zone — is nevertheless selected by `evaluate`, because
`RuleEngine.evaluate` never consults `fromZone` (it does not even
receive a current zone). -/
theorem fromZone_ignored_cex :
    specRuleMatches "zone1" eWrongZone evProc = false ∧
    (evaluate [eWrongZone] evProc [] 0).1 = some eWrongZone := by
  constructor
  · decide
  · decide

/-- Claim C2, amended: the matcher considers exactly the rules whose
trigger equals the event's trigger and whose conditions hold on the
event payload; `fromZone` is never consulted, so any selected rule is a
trigger-and-conditions candidate but need not match the current zone. -/
theorem matcher_filter_characterization (rules : List Edge) (ev : Event)
    (m : CoolMap) (now : Int) (r : Edge) :
    ((evaluate rules ev m now).1 = some r → r ∈ rules ∧ candidateOk r ev = true) ∧
    candidatesOf rules ev = rules.filter (fun e => candidateOk e ev) := by
  refine ⟨?_, rfl⟩
  intro h
  obtain ⟨t, ht⟩ := evaluate_some_head rules ev m now r h
  obtain ⟨hmem, -, -⟩ := sortDesc_head_spec _ r t ht
  have := List.mem_filter.1 hmem
  exact ⟨this.1, this.2⟩

/-- Witness for the amended C2 on a concrete selection. -/
theorem matcher_filter_characterization_witness :
    eWrongZone ∈ [eWrongZone] ∧ candidateOk eWrongZone evProc = true :=
  (matcher_filter_characterization [eWrongZone] evProc [] 0 eWrongZone).1 (by decide)

/-- Counterexample to claim C7 as stated: for an event that matches no
rule's (trigger, fromZone, conditions) triple in the spec's sense — the
only rule requires `fromZone = zone3` while the zone is `zone1` — the
engine nevertheless returns that rule and dispatches its actions,
because `fromZone` is ignored. -/
theorem no_spec_match_still_fires :
    (∀ e ∈ [eZone3Rule], specRuleMatches "zone1" e evNet = false) ∧
    (handleConn [eZone3Rule] [] 0 (RawInput.goodJson evNet)).1 =
      ConnResult.handled (some eZone3Rule) ∧
    (handleConn [eZone3Rule] [] 0 (RawInput.goodJson evNet)).2.1 =
      [DispatchOutcome.ran "lockClipboard"] := by
  refine ⟨?_, ?_, ?_⟩
  · decide
  · decide
  · decide

/-- Claim C7, amended: for every event for which no rule matches on
(trigger, conditions) — the pair the code actually checks — the matcher
returns no-match (not an error), the cooldown map is untouched and the
daemon dispatches nothing; on the application side, a simulated URL
event that detects nothing leaves the whole monitor state unchanged. -/
theorem no_match_frame (rules : List Edge) (ev : Event) (m : CoolMap) (now : Int)
    (h : ∀ e ∈ rules, candidateOk e ev = false) :
    evaluate rules ev m now = (none, m) ∧
    handleConn rules m now (RawInput.goodJson ev) = (ConnResult.handled none, [], m) ∧
    (∀ (ex : ActionExec) (s : MonitorState) (u : String),
      detectBankUrl u = false → simulateUrl ex s u = s) := by
  have hnil : candidatesOf rules ev = [] := by
    unfold candidatesOf
    rw [List.filter_eq_nil_iff]
    intro e he
    simp [h e he]
  have h1 : evaluate rules ev m now = (none, m) := evaluate_of_no_candidates _ _ _ _ hnil
  refine ⟨h1, ?_, ?_⟩
  · unfold handleConn
    dsimp only []
    rw [h1]
  · intro ex s u hu
    unfold simulateUrl
    rw [if_neg (by simp [hu])]

/-- Witness for the amended C7: an event no rule triggers on. -/
theorem no_match_frame_witness :
    evaluate [eZone3Rule] evUnmatched [] 5 = (none, []) ∧
    handleConn [eZone3Rule] [] 5 (RawInput.goodJson evUnmatched) =
      (ConnResult.handled none, [], []) ∧
    (∀ (ex : ActionExec) (s : MonitorState) (u : String),
      detectBankUrl u = false → simulateUrl ex s u = s) :=
  no_match_frame [eZone3Rule] evUnmatched [] 5 (by decide)

/-! ## Claim C6: malformed ingress -/

/-- Counterexample to claim C6 as stated: a decoded JSON object with no
`trigger` field is NOT rejected with a decode error — `handle_conn`
processes it normally (`event.get('trigger')` is `None`, which matches
no rule), so the outcome is a no-match, not a decode error. -/
theorem missing_trigger_not_decode_error :
    (handleConn [eUsbRule, eZone3Rule] [] 0
        (RawInput.goodJson { trigger := none, url := none })).1 ≠
      ConnResult.decodeError ∧
    handleConn [eUsbRule, eZone3Rule] [] 0
        (RawInput.goodJson { trigger := none, url := none }) =
      (ConnResult.handled none, [], []) := by
  constructor
  · decide
  · decide

/-- Claim C6, amended: undecodable bytes are rejected with a decode
error, caught without crashing; a decoded object missing `trigger` is
not rejected with a decode error but simply matches no rule. In both
cases no rule is evaluated to a match, no actions are dispatched, and
the engine state (the cooldown map) is unchanged. -/
theorem malformed_ingress_handling (rules : List Edge) (m : CoolMap) (now : Int)
    (raw : String) :
    handleConn rules m now (RawInput.badJson raw) = (ConnResult.decodeError, [], m) ∧
    (∀ ev : Event, ev.trigger = none →
      handleConn rules m now (RawInput.goodJson ev) = (ConnResult.handled none, [], m)) := by
  refine ⟨rfl, ?_⟩
  intro ev hev
  have hnil : candidatesOf rules ev = [] := by
    unfold candidatesOf
    rw [List.filter_eq_nil_iff]
    intro e he
    simp [candidateOk, hev]
  have h1 : evaluate rules ev m now = (none, m) := evaluate_of_no_candidates _ _ _ _ hnil
  unfold handleConn
  dsimp only []
  rw [h1]

/-- Witness for the amended C6 on concrete raw bytes and a concrete
trigger-less object. -/
theorem malformed_ingress_handling_witness :
    handleConn [eUsbRule] [] 7 (RawInput.badJson "not json") =
      (ConnResult.decodeError, [], []) ∧
    handleConn [eUsbRule] [] 7 (RawInput.goodJson { trigger := none, url := some "x" }) =
      (ConnResult.handled none, [], []) :=
  ⟨(malformed_ingress_handling [eUsbRule] [] 7 "not json").1,
   (malformed_ingress_handling [eUsbRule] [] 7 "not json").2
     { trigger := none, url := some "x" } rfl⟩

/-! ## Claim C4: cooldown suppression and re-arming -/

/-- Claim C4: once a rule `r` with a non-zero cooldown `C` has fired at
`now0` (recording `now0` in the tracker), re-evaluating the same event
at any `t` with `t - now0 < C` returns no rule at all — it neither falls
through to another candidate nor touches the last-fired time — while
re-evaluating at any `t` with `t - now0 ≥ C` selects `r` again and
records `t` as the new firing time. -/
theorem cooldown_policy (rules : List Edge) (ev : Event) (m m2 : CoolMap)
    (now0 : Int) (r : Edge)
    (h : evaluate rules ev m now0 = (some r, m2)) (hc : r.cooldownSeconds ≠ 0) :
    (∀ t : Int, t - now0 < (r.cooldownSeconds : Int) →
      evaluate rules ev m2 t = (none, m2)) ∧
    (∀ t : Int, (r.cooldownSeconds : Int) ≤ t - now0 →
      (evaluate rules ev m2 t).1 = some r ∧
      getTime (evaluate rules ev m2 t).2 (r.trigger, r.conditions) = t) := by
  obtain ⟨⟨rest, hs⟩, hm2⟩ := evaluate_fired rules ev m m2 now0 r h hc
  have hget : getTime m2 (r.trigger, r.conditions) = now0 := by
    rw [hm2]
    exact getTime_setTime_self ..
  constructor
  · intro t ht
    unfold evaluate
    rw [hs]
    dsimp only []
    rw [if_pos hc, if_pos (by rw [hget]; exact ht)]
  · intro t ht
    unfold evaluate
    rw [hs]
    dsimp only []
    rw [if_pos hc, if_neg (by rw [hget]; exact not_lt.2 ht)]
    exact ⟨rfl, getTime_setTime_self ..⟩

/-- Witness for C4: rule with cooldown 5 fired at time 100; time 103 is
suppressed with the tracker untouched, time 105 fires and records 105. -/
theorem cooldown_policy_witness :
    evaluate [eCool] evCool mFired 103 = (none, mFired) ∧
    ((evaluate [eCool] evCool mFired 105).1 = some eCool ∧
      getTime (evaluate [eCool] evCool mFired 105).2 ("cool", { urlPattern := none }) = 105) :=
  ⟨(cooldown_policy [eCool] evCool [] mFired 100 eCool (by decide) (by decide)).1
      103 (by decide),
   (cooldown_policy [eCool] evCool [] mFired 100 eCool (by decide) (by decide)).2
      105 (by decide)⟩

/-! ## Claim C8: priority and declaration-order selection -/

/-- Claim C8: whenever the matcher returns a rule, that rule has maximal
priority among the surviving candidates, and it is the first-declared
rule among those of that priority (every candidate declared before it
has strictly smaller priority). Determinism is inherent: `evaluate` is a
pure function of (rules, event, cooldown map, time). -/
theorem priority_tiebreak_selection (rules : List Edge) (ev : Event)
    (m : CoolMap) (now : Int) (r : Edge)
    (h : (evaluate rules ev m now).1 = some r) :
    (∀ y ∈ candidatesOf rules ev, y.priority ≤ r.priority) ∧
    (∃ p q, candidatesOf rules ev = p ++ r :: q ∧
      ∀ y ∈ p, y.priority < r.priority) := by
  obtain ⟨t, ht⟩ := evaluate_some_head rules ev m now r h
  obtain ⟨-, hmax, hdecomp⟩ := sortDesc_head_spec _ r t ht
  exact ⟨hmax, hdecomp⟩

/-- Witness for C8 at two equal-priority rules: the engine concretely
returns the first-declared one, which the theorem then certifies as a
first-position maximal candidate. -/
theorem priority_tiebreak_selection_witness :
    (∀ y ∈ candidatesOf [eTieA, eTieB] evTie, y.priority ≤ eTieA.priority) ∧
    (∃ p q, candidatesOf [eTieA, eTieB] evTie = p ++ eTieA :: q ∧
      ∀ y ∈ p, y.priority < eTieA.priority) :=
  priority_tiebreak_selection [eTieA, eTieB] evTie [] 0 eTieA (by decide)

/-! ## Claim C5: fail-soft action dispatch -/

/-- Claim C5: `execute_actions` produces exactly one result per action,
in declared order; actions after a failing one (exception included) are
still executed — dispatch over a concatenation is the concatenation of
dispatches, for every executor; an unknown action name yields the
"disabled or unknown" failure result instead of aborting; the daemon's
dispatcher has the same fail-soft shape; and the zone installed by the
transition that triggered the dispatch (`zone3` on USB attach) survives
any action outcome. -/
theorem dispatch_fail_soft (cfg : SecConfig) (ex : ActionExec)
    (as bs : List String) (a : String) (hu : a ∉ knownActions) :
    executeActions cfg ex (as ++ bs) =
      executeActions cfg ex as ++ executeActions cfg ex bs ∧
    (executeActions cfg ex as).length = as.length ∧
    runAction cfg ex a = a ++ ": " ++ ("Action " ++ a ++ " disabled or unknown") ∧
    applyActions (as ++ bs) = applyActions as ++ applyActions bs ∧
    (∀ (s : MonitorState) (d : String),
      (handleUsbAdd ex s d).currentZone = "zone3") := by
  refine ⟨?_, ?_, ?_, ?_, fun s d => handleUsbAdd_zone ex s d⟩
  · induction as with
    | nil => rfl
    | cons x xs ih => simp only [List.cons_append, executeActions, List.append_eq, ih]
  · induction as with
    | nil => rfl
    | cons x xs ih => simp only [executeActions, List.length_cons, ih]
  · simp only [knownActions, List.mem_cons, List.mem_singleton, not_or] at hu
    obtain ⟨h1, h2, h3, h4, h5⟩ := hu
    dsimp only [runAction]
    rw [if_neg (by simp [h1]), if_neg (by simp [h2]), if_neg h3,
      if_neg (by simp [h4]), if_neg (by simp [h5])]
  · unfold applyActions
    exact List.map_append ..

/-- Witness for C5 with an executor that raises on every action. -/
theorem dispatch_fail_soft_witness :
    executeActions defaultConfig exBoom (["enableVpn"] ++ ["lockClipboard"]) =
      executeActions defaultConfig exBoom ["enableVpn"] ++
        executeActions defaultConfig exBoom ["lockClipboard"] ∧
    (executeActions defaultConfig exBoom ["enableVpn"]).length = 1 ∧
    runAction defaultConfig exBoom "frobnicate" =
      "frobnicate" ++ ": " ++ ("Action " ++ "frobnicate" ++ " disabled or unknown") ∧
    applyActions (["enableVpn"] ++ ["lockClipboard"]) =
      applyActions ["enableVpn"] ++ applyActions ["lockClipboard"] ∧
    (handleUsbAdd exBoom sLocked "sdc9").currentZone = "zone3" := by
  obtain ⟨h1, h2, h3, h4, h5⟩ := dispatch_fail_soft defaultConfig exBoom
    ["enableVpn"] ["lockClipboard"] "frobnicate" (by decide)
  exact ⟨h1, h2, h3, h4, h5 sLocked "sdc9"⟩

/-! ## Claim C10: urlPattern passes vacuously without a url -/

/-- Claim C10: a rule whose conditions carry a `urlPattern` list is a
full matching candidate for any event without a `url` field — the
pattern test only runs when the event carries a url — and such a rule
can indeed fire on a url-less event. -/
theorem urlPattern_vacuous_without_url (e : Edge) (ev : Event)
    (pats : List String) (now : Int)
    (hc : e.conditions.urlPattern = some pats) (hu : ev.url = none)
    (ht : ev.trigger = some e.trigger) (hcd : (e.cooldownSeconds : Int) ≤ now) :
    condOk e.conditions ev = true ∧ candidateOk e ev = true ∧
    (evaluate [e] ev [] now).1 = some e := by
  have h1 : condOk e.conditions ev = true := by
    unfold condOk
    rw [hc, hu]
  have h2 : candidateOk e ev = true := by
    unfold candidateOk
    rw [ht, h1]
    simp
  refine ⟨h1, h2, ?_⟩
  have hcand : candidatesOf [e] ev = [e] := by
    unfold candidatesOf
    simp [h2]
  unfold evaluate
  rw [hcand]
  simp only [sortDesc, insertByPrio]
  by_cases hc0 : e.cooldownSeconds ≠ 0
  · rw [if_pos hc0]
    rw [if_neg (by
      have hg : getTime ([] : CoolMap) (e.trigger, e.conditions) = 0 := rfl
      rw [hg]
      omega)]
  · rw [if_neg hc0]

/-- Witness for C10: the `*.bank.com`-conditioned rule fires on an event
carrying no url at all. -/
theorem urlPattern_vacuous_without_url_witness :
    condOk eUrlCond.conditions evNoUrl = true ∧
    candidateOk eUrlCond evNoUrl = true ∧
    (evaluate [eUrlCond] evNoUrl [] 0).1 = some eUrlCond :=
  urlPattern_vacuous_without_url eUrlCond evNoUrl ["*.bank.com"] 0 rfl rfl rfl
    (by decide)

end DPS

